import Mathlib

/-!
Verification of the What-If scenario simulation engine and its dashboard page.

The repository ships the React page (`WhatIfScenariosPage` in
`frontend/src/components/AttributionPage.tsx`) that drives the engine over
HTTP.  The backend engine itself (`commerce_app`, referenced by the
Dockerfile) is not part of the source tree, so the engine components
(Baseline Estimator, Price Elasticity Model, Variable Composer, Monte Carlo
Sampler, Statistics Reducer, Sensitivity Analyzer) are modelled here from the
specification, while the page logic (request construction, select options,
state updates on success and failure, sensitivity presentation order) is
embedded directly from the TypeScript source.

All monetary and fractional quantities are modelled over `ℚ`; the backend's
floating-point square root is modelled by a computable rational Newton
approximation (`ratSqrt`), whose value none of the proved properties depend
on.
-/

namespace WhatIf

/-! ## Statistics Reducer helpers (modelled from the spec, section 4.5) -/

/-- Arithmetic mean of a list of rationals (`0` for the empty list, since
`ℚ` division by zero is zero). -/
def meanOf (xs : List ℚ) : ℚ := xs.sum / (xs.length : ℚ)

/-- One Newton step for the square-root approximation. -/
def sqrtStep (q x : ℚ) : ℚ := (x + q / x) / 2

/-- Modelled from the spec: the implementation computes standard deviations
with a floating-point square root; here a computable rational Newton
approximation stands in for it.  No proved property depends on its value. -/
def ratSqrt (q : ℚ) : ℚ := if q ≤ 0 then 0 else (sqrtStep q)^[8] (q + 1)

/-- Sample variance (denominator `n - 1`; degenerates to `0` via rational
division by zero when the list has at most one element). -/
def sampleVarianceOf (xs : List ℚ) : ℚ :=
  (xs.map (fun x => (x - meanOf xs) ^ 2)).sum / ((xs.length : ℚ) - 1)

/-- The single ascending sort the Statistics Reducer performs on a trial
population before reading percentiles off it. -/
def sortedOf (xs : List ℚ) : List ℚ := List.insertionSort (· ≤ ·) xs

/-- Index of the `p`-th percentile in a sorted population of `n` trials. -/
def percentileIdx (p n : ℕ) : ℕ := p * (n - 1) / 100

/-- The `p`-th percentile of an already sorted population (`0` for an empty
population). -/
def percentile (p : ℕ) (sorted : List ℚ) : ℚ :=
  sorted.getD (percentileIdx p sorted.length) 0

/-- Median of a population: the 50th percentile after the sort. -/
def medianOf (xs : List ℚ) : ℚ := percentile 50 (sortedOf xs)

/-- Fixed histogram bucket count (spec: "fixed bucket count (e.g. 20)"). -/
def numBuckets : ℕ := 20

/-- Bucket index of a value for bin width `w` starting at `lo`; the last
bucket also absorbs the maximum, and a degenerate (zero-width) histogram
collapses into bucket `0`. -/
def bucketIdx (lo w v : ℚ) : ℕ :=
  if w ≤ 0 then 0 else min (((v - lo) / w).floor.toNat) (numBuckets - 1)

/-- Minimum of a list of rationals (`0` for the empty list). -/
def listMin (xs : List ℚ) : ℚ :=
  match xs with
  | [] => 0
  | x :: rest => rest.foldl min x

/-- Maximum of a list of rationals (`0` for the empty list). -/
def listMax (xs : List ℚ) : ℚ :=
  match xs with
  | [] => 0
  | x :: rest => rest.foldl max x

/-- Histogram payload: bin edges, bin centers and per-bucket frequencies,
mirroring the `histogram` object of the `SimulationResults` interface. -/
structure HistogramM where
  bins : List ℚ
  bin_centers : List ℚ
  frequencies : List ℕ
deriving DecidableEq, Repr

/-- Histogram of a trial population: `numBuckets` equal-width buckets
spanning `[min, max]`, edges by linear spacing, centers at edge midpoints,
frequencies by counting the values falling in each bucket. -/
def histogramOf (xs : List ℚ) : HistogramM :=
  let lo := listMin xs
  let w := (listMax xs - lo) / (numBuckets : ℚ)
  { bins := (List.range (numBuckets + 1)).map (fun i => lo + w * (i : ℚ))
  , bin_centers := (List.range numBuckets).map (fun i => lo + w * (i : ℚ) + w / 2)
  , frequencies :=
      (List.range numBuckets).map
        (fun i => xs.countP (fun v => decide (bucketIdx lo w v = i))) }

/-- Per-population summary of the Statistics Reducer, mirroring the
`revenue` / `profit` blocks of the `SimulationResults` interface. -/
structure StatsSummary where
  mean : ℚ
  median : ℚ
  std_dev : ℚ
  percentile_5 : ℚ
  percentile_95 : ℚ
  confidence_90 : ℚ × ℚ
  histogram : HistogramM
deriving DecidableEq, Repr

/-- Reduce one trial population: mean, median, std-dev, 5th/95th
percentiles, the 90% confidence interval `(p5, p95)` and the histogram. -/
def summarize (xs : List ℚ) : StatsSummary :=
  { mean := meanOf xs
  , median := percentile 50 (sortedOf xs)
  , std_dev := ratSqrt (sampleVarianceOf xs)
  , percentile_5 := percentile 5 (sortedOf xs)
  , percentile_95 := percentile 95 (sortedOf xs)
  , confidence_90 := (percentile 5 (sortedOf xs), percentile 95 (sortedOf xs))
  , histogram := histogramOf xs }

/-- Fraction of trials strictly above zero, scaled to percent. -/
def probabilityPositive (xs : List ℚ) : ℚ :=
  100 * ((xs.countP fun x => decide (0 < x) : ℕ) : ℚ) / (xs.length : ℚ)

/-! ## Data model (engine side, modelled from the spec, section 3) -/

/-- The six-plus-one what-if knobs, exactly the `variables` object the page
posts to `/api/what-if/simulate` (all fractional multipliers; the price
multiplier is an absolute multiplier with `1` meaning no change). -/
structure WhatIfVariables where
  revenue_growth : ℚ
  aov_change : ℚ
  order_volume_change : ℚ
  cogs_change : ℚ
  conversion_rate_change : ℚ
  price_multiplier : ℚ
  price_elasticity : ℚ
deriving DecidableEq, Repr

/-- Error taxonomy of the engine (spec, section 7). -/
inductive WhatIfError where
  | insufficientData : WhatIfError
  | validationError (field : String) : WhatIfError
  | computationLimit (field : String) : WhatIfError
deriving DecidableEq, Repr

/-- One historical daily observation consumed by the Baseline Estimator. -/
structure DailyObs where
  revenue : ℚ
  order_count : ℚ
  cogs : ℚ
deriving DecidableEq, Repr

/-- Baseline summary statistics anchoring a simulation (spec, section 3). -/
structure BaselineMetricsM where
  period_days : ℕ
  daily_revenue_mean : ℚ
  daily_revenue_std_dev : ℚ
  daily_orders_mean : ℚ
  daily_orders_std_dev : ℚ
  average_order_value : ℚ
  cogs_rate : ℚ
  revenue_cov : ℚ
  revenue_trend : ℚ
deriving DecidableEq, Repr

/-- Closed-form ordinary-least-squares slope of a series against its day
index (spec, section 4.1), guarded against a degenerate denominator. -/
def olsSlope (ys : List ℚ) : ℚ :=
  let n : ℚ := ys.length
  let xs := (List.range ys.length).map (fun i => (i : ℚ))
  let sx := xs.sum
  let sy := ys.sum
  let sxy := ((xs.zip ys).map (fun p => p.1 * p.2)).sum
  let sxx := (xs.map (fun x => x * x)).sum
  let den := n * sxx - sx * sx
  if den = 0 then 0 else (n * sxy - sx * sy) / den

/-- Modelled from the spec: `GetBaseline`, the Baseline Estimator (spec,
sections 4.1 and 6; the backend implementation is not in the source tree).
Requires at least 2 observations and fails with `insufficientData`
otherwise; average order value and the coefficient of variation carry
divide-by-zero guards so that an all-zero window still succeeds. -/
def getBaseline (obs : List DailyObs) : Except WhatIfError BaselineMetricsM :=
  if obs.length < 2 then
    .error .insufficientData
  else
    let n : ℚ := obs.length
    let revs := obs.map (·.revenue)
    let ords := obs.map (·.order_count)
    let cogsList := obs.map (·.cogs)
    let meanRev := revs.sum / n
    let meanOrd := ords.sum / n
    let meanCogs := cogsList.sum / n
    .ok
      { period_days := obs.length
      , daily_revenue_mean := meanRev
      , daily_revenue_std_dev := ratSqrt (sampleVarianceOf revs)
      , daily_orders_mean := meanOrd
      , daily_orders_std_dev := ratSqrt (sampleVarianceOf ords)
      , average_order_value := if meanOrd = 0 then 0 else meanRev / meanOrd
      , cogs_rate := if meanRev = 0 then 0 else meanCogs / meanRev
      , revenue_cov :=
          if meanRev = 0 then 0 else ratSqrt (sampleVarianceOf revs) / meanRev
      , revenue_trend := olsSlope revs }

/-! ## Price Elasticity Model (modelled from the spec, section 4.2) -/

/-- Demand effect of a price change: `elasticity × (price_multiplier − 1)`. -/
def demandEffect (elasticity priceMult : ℚ) : ℚ := elasticity * (priceMult - 1)

/-- Elasticity-adjusted daily order count, floored at zero. -/
def elasticityAdjustedOrders (baseOrders elasticity priceMult : ℚ) : ℚ :=
  max 0 (baseOrders * (1 + demandEffect elasticity priceMult))

/-- Recommendation decision table keyed on the profit-delta sign and the
demand-delta magnitude (spec, section 4.2). -/
def recommendationFor (profitDelta demandEff : ℚ) : String :=
  if 0 ≤ profitDelta then
    if demandEff < -3 / 10 then
      "Profitable overall, but demand drops sharply - monitor volume closely."
    else
      "This price change looks profitable."
  else
    if demandEff < -3 / 10 then
      "High risk: both profit and demand fall under this price change."
    else
      "This price change reduces profit."

/-- `GetPricePreview` output: current vs. projected daily figures, deltas,
breakeven elasticity and a qualitative recommendation. -/
structure PricePreviewM where
  price_multiplier : ℚ
  price_change_percent : ℚ
  elasticity : ℚ
  demand_effect : ℚ
  current_daily_orders : ℚ
  current_average_order_value : ℚ
  current_daily_revenue : ℚ
  current_daily_profit : ℚ
  projected_daily_orders : ℚ
  projected_average_order_value : ℚ
  projected_daily_revenue : ℚ
  projected_daily_profit : ℚ
  orders_change_percent : ℚ
  revenue_change_absolute : ℚ
  revenue_change_percent : ℚ
  profit_change_absolute : ℚ
  profit_change_percent : ℚ
  breakeven_elasticity : Option ℚ
  is_profitable_change : Bool
  recommendation : String
deriving DecidableEq, Repr

/-- Percentage delta from `cur` to `proj`, guarded against `cur = 0`. -/
def percentDelta (cur proj : ℚ) : ℚ :=
  if cur = 0 then 0 else (proj - cur) / cur * 100

/-- Modelled from the spec: `GetPricePreview`, the Price Elasticity Model
(spec, sections 4.2 and 6; the backend implementation is not in the source
tree).  Pure function of the baseline daily orders, average order value and
per-unit cost together with the price multiplier and elasticity. -/
def pricePreviewModel (dailyOrders aov unitCost priceMult elasticity : ℚ) :
    PricePreviewM :=
  let eff := demandEffect elasticity priceMult
  let projOrders := elasticityAdjustedOrders dailyOrders elasticity priceMult
  let projAov := aov * priceMult
  let projRevenue := projOrders * projAov
  let projProfit := projRevenue - projOrders * unitCost
  let curRevenue := dailyOrders * aov
  let curProfit := curRevenue - dailyOrders * unitCost
  { price_multiplier := priceMult
  , price_change_percent := (priceMult - 1) * 100
  , elasticity := elasticity
  , demand_effect := eff
  , current_daily_orders := dailyOrders
  , current_average_order_value := aov
  , current_daily_revenue := curRevenue
  , current_daily_profit := curProfit
  , projected_daily_orders := projOrders
  , projected_average_order_value := projAov
  , projected_daily_revenue := projRevenue
  , projected_daily_profit := projProfit
  , orders_change_percent := percentDelta dailyOrders projOrders
  , revenue_change_absolute := projRevenue - curRevenue
  , revenue_change_percent := percentDelta curRevenue projRevenue
  , profit_change_absolute := projProfit - curProfit
  , profit_change_percent := percentDelta curProfit projProfit
  , breakeven_elasticity :=
      if priceMult = 1 then none else some (-1 / (priceMult - 1))
  , is_profitable_change := decide (0 ≤ projProfit - curProfit)
  , recommendation := recommendationFor (projProfit - curProfit) eff }

/-! ## Variable Composer (modelled from the spec, section 4.3) -/

/-- Adjusted daily distribution handed to the Monte Carlo Sampler. -/
structure AdjustedDistribution where
  mean_orders : ℚ
  mean_aov : ℚ
  mean_revenue : ℚ
  std_revenue : ℚ
  cogs_rate : ℚ
deriving DecidableEq, Repr

/-- Modelled from the spec: the Variable Composer (spec, section 4.3; the
backend implementation is not in the source tree).  Order-volume and
conversion-rate shifts compose additively before being applied as one
multiplier; the revenue standard deviation scales with the adjusted mean so
the baseline coefficient of variation is preserved. -/
def composeVariables (b : BaselineMetricsM) (v : WhatIfVariables) :
    AdjustedDistribution :=
  let elOrders :=
    elasticityAdjustedOrders b.daily_orders_mean v.price_elasticity
      v.price_multiplier
  let elAov := b.average_order_value * v.price_multiplier
  let mo := elOrders * (1 + v.order_volume_change + v.conversion_rate_change)
  let ma := elAov * (1 + v.aov_change)
  let mr := mo * ma * (1 + v.revenue_growth)
  { mean_orders := mo
  , mean_aov := ma
  , mean_revenue := mr
  , std_revenue := b.revenue_cov * mr
  , cogs_rate := b.cogs_rate * (1 + v.cogs_change) }

/-! ## Monte Carlo Sampler (modelled from the spec, section 4.4) -/

/-- Seedable linear congruential generator over 64-bit naturals, modelling
the injectable random source the spec requires (section 9). -/
def lcgNext (s : ℕ) : ℕ :=
  (6364136223846793005 * s + 1442695040888963407) % (2 ^ 64)

/-- Deterministic noise in `[-1, 1]` derived from a generator state,
standing in for a unit normal draw. -/
def noiseOf (s : ℕ) : ℚ := ((s % 2001 : ℕ) : ℚ) / 1000 - 1

/-- Draw one daily revenue sample from the adjusted distribution, truncated
at zero, threading the generator state. -/
def sampleDay (mean std : ℚ) (s : ℕ) : ℚ × ℕ :=
  let s2 := lcgNext s
  (max 0 (mean + std * noiseOf s2), s2)

/-- Sum `days` independent daily samples into one trial total, threading
the generator state. -/
def sampleTrial (mean std : ℚ) : ℕ → ℕ → ℚ × ℕ
  | 0, s => (0, s)
  | d + 1, s =>
    let x := sampleDay mean std s
    let rest := sampleTrial mean std d x.2
    (x.1 + rest.1, rest.2)

/-- Draw `n` independent trials of `days` daily samples each, threading the
generator state. -/
def sampleTrials (mean std : ℚ) (days : ℕ) : ℕ → ℕ → List ℚ × ℕ
  | 0, s => ([], s)
  | n + 1, s =>
    let t := sampleTrial mean std days s
    let rest := sampleTrials mean std days n t.2
    (t.1 :: rest.1, rest.2)

/-! ## RunSimulation (modelled from the spec, sections 4.4 to 4.7 and 6) -/

/-- The body the page posts to `/api/what-if/simulate`, which is exactly the
input of the engine's `RunSimulation` operation. -/
structure SimInputs where
  base_period_days : ℕ
  forecast_days : ℕ
  simulations : ℕ
  vars : WhatIfVariables
deriving DecidableEq, Repr

/-- Baseline snapshot echoed inside a simulation result, mirroring the
`baseline` block of the `SimulationResults` interface. -/
structure BaselineSnapshot where
  daily_revenue : ℚ
  daily_orders : ℚ
  average_order_value : ℚ
  cogs_rate : ℚ
deriving DecidableEq, Repr

/-- Price-analysis block of a simulation result, mirroring the
`price_analysis` block of the `SimulationResults` interface. -/
structure PriceAnalysisM where
  price_change_percent : ℚ
  elasticity_used : ℚ
  demand_effect_percent : ℚ
  adjusted_aov : ℚ
  adjusted_daily_orders : ℚ
deriving DecidableEq, Repr

/-- The `results` block of a simulation result. -/
structure SimResultsBlock where
  revenue : StatsSummary
  profit : StatsSummary
  probability_positive : ℚ
  orders_mean : ℚ
  orders_median : ℚ
  profit_margin_mean : ℚ
  profit_margin_median : ℚ
deriving DecidableEq, Repr

/-- A full `SimulationResult`, mirroring the `SimulationResults` interface
of the page (the opaque server-generated id is modelled as the seed echo so
that the result is a pure function of inputs and seed, as the spec's
determinism requirement demands). -/
structure SimulationResultM where
  simulation_id : ℕ
  inputs : SimInputs
  baseline : BaselineSnapshot
  price_analysis : PriceAnalysisM
  results : SimResultsBlock
  sensitivity : List (String × ℚ)
  insights : List String
deriving DecidableEq, Repr

/-- Declaration order of the what-if variables, used by the Sensitivity
Analyzer and for tie-breaking in the ranked breakdown. -/
def variableNames : List String :=
  ["revenue_growth", "aov_change", "order_volume_change", "cogs_change",
   "conversion_rate_change", "price_multiplier", "price_elasticity"]

/-- Bump one named variable by `delta`, holding the others fixed. -/
def perturbVariable (v : WhatIfVariables) (name : String) (delta : ℚ) :
    WhatIfVariables :=
  if name = "revenue_growth" then { v with revenue_growth := v.revenue_growth + delta }
  else if name = "aov_change" then { v with aov_change := v.aov_change + delta }
  else if name = "order_volume_change" then { v with order_volume_change := v.order_volume_change + delta }
  else if name = "cogs_change" then { v with cogs_change := v.cogs_change + delta }
  else if name = "conversion_rate_change" then { v with conversion_rate_change := v.conversion_rate_change + delta }
  else if name = "price_multiplier" then { v with price_multiplier := v.price_multiplier + delta }
  else { v with price_elasticity := v.price_elasticity + delta }

/-- Expected daily profit of the adjusted distribution, the quantity whose
swing the Sensitivity Analyzer measures. -/
def expectedDailyProfit (b : BaselineMetricsM) (v : WhatIfVariables) : ℚ :=
  let d := composeVariables b v
  d.mean_revenue * (1 - d.cogs_rate)

/-- Modelled from the spec: one-at-a-time impact of a variable (spec,
section 4.6; the backend implementation is not in the source tree):
perturb by a fixed `+10` percentage-point delta, measure the relative swing
in expected profit, clamp to a sane display range. -/
def sensitivityImpact (b : BaselineMetricsM) (v : WhatIfVariables)
    (name : String) : ℚ :=
  let base := expectedDailyProfit b v
  let pert := expectedDailyProfit b (perturbVariable v name (1 / 10))
  if base = 0 then 0 else min (|pert - base| / |base| * 100) 100

/-- Sensitivity map in variable declaration order. -/
def sensitivityImpacts (b : BaselineMetricsM) (v : WhatIfVariables) :
    List (String × ℚ) :=
  variableNames.map (fun n => (n, sensitivityImpact b v n))

/-- Modelled from the spec: the rule-based Insight Generator (spec, section
4.7), an ordered list of threshold checks. -/
def mkInsights (probPositive topImpact : ℚ) (topName : String) :
    List String :=
  (if probPositive < 50 then
    ["Warning: the probability of a positive profit is below 50%."]
   else []) ++
  (if 30 < topImpact then
    ["The variable " ++ topName ++ " drives most of the outcome."]
   else [])

/-- Revenue totals of the `n` Monte Carlo trials of a request. -/
def trialRevenues (b : BaselineMetricsM) (inp : SimInputs) (seed : ℕ) :
    List ℚ :=
  (sampleTrials (composeVariables b inp.vars).mean_revenue
    (composeVariables b inp.vars).std_revenue
    inp.forecast_days inp.simulations seed).1

/-- Profit totals: cost is proportional to revenue through the adjusted
COGS rate, so profit is `revenue × (1 − rate)` trial by trial. -/
def trialProfits (b : BaselineMetricsM) (inp : SimInputs) (seed : ℕ) :
    List ℚ :=
  (trialRevenues b inp seed).map
    (fun r => r - r * (composeVariables b inp.vars).cogs_rate)

/-- Order totals derived per trial from revenue and the adjusted AOV. -/
def trialOrders (b : BaselineMetricsM) (inp : SimInputs) (seed : ℕ) :
    List ℚ :=
  (trialRevenues b inp seed).map
    (fun r =>
      if (composeVariables b inp.vars).mean_aov = 0 then 0
      else r / (composeVariables b inp.vars).mean_aov)

/-- Profit-margin percentages derived per trial. -/
def trialMargins (b : BaselineMetricsM) (inp : SimInputs) (seed : ℕ) :
    List ℚ :=
  (trialRevenues b inp seed).map
    (fun r =>
      if r = 0 then 0
      else (r - r * (composeVariables b inp.vars).cogs_rate) / r * 100)

/-- Modelled from the spec: the `RunSimulation` operation (spec, sections
4.4 to 4.7 and 6; the backend implementation is not in the source tree).
The baseline is the already-materialized historical summary; the result is
a pure function of the baseline, the inputs and the seed. -/
def runSimulationModel (b : BaselineMetricsM) (inp : SimInputs) (seed : ℕ) :
    SimulationResultM :=
  { simulation_id := seed
  , inputs := inp
  , baseline :=
    { daily_revenue := b.daily_revenue_mean
    , daily_orders := b.daily_orders_mean
    , average_order_value := b.average_order_value
    , cogs_rate := b.cogs_rate }
  , price_analysis :=
    { price_change_percent := (inp.vars.price_multiplier - 1) * 100
    , elasticity_used := inp.vars.price_elasticity
    , demand_effect_percent :=
        demandEffect inp.vars.price_elasticity
          inp.vars.price_multiplier * 100
    , adjusted_aov := b.average_order_value * inp.vars.price_multiplier
    , adjusted_daily_orders :=
        elasticityAdjustedOrders b.daily_orders_mean
          inp.vars.price_elasticity inp.vars.price_multiplier }
  , results :=
    { revenue := summarize (trialRevenues b inp seed)
    , profit := summarize (trialProfits b inp seed)
    , probability_positive := probabilityPositive (trialProfits b inp seed)
    , orders_mean := meanOf (trialOrders b inp seed)
    , orders_median := medianOf (trialOrders b inp seed)
    , profit_margin_mean := meanOf (trialMargins b inp seed)
    , profit_margin_median := medianOf (trialMargins b inp seed) }
  , sensitivity := sensitivityImpacts b inp.vars
  , insights :=
      mkInsights (probabilityPositive (trialProfits b inp seed))
        (sensitivityImpact b inp.vars "revenue_growth")
        "revenue_growth" }

/-! ## Frontend embedding: `WhatIfScenariosPage`
(`frontend/src/components/AttributionPage.tsx`) -/

/-- `Base Period` select options (values `'30'..'365'`, lines 975-981). -/
def basePeriodOptions : List ℕ := [30, 60, 90, 180, 365]

/-- `Forecast Period` select options (values `'7'..'90'`, lines 990-996). -/
def forecastOptions : List ℕ := [7, 14, 30, 60, 90]

/-- `Simulations` select options (values `'1000'..'50000'`, lines
1005-1011). -/
def simulationOptions : List ℕ := [1000, 5000, 10000, 25000, 50000]

/-- React state of `WhatIfScenariosPage`: slider values are stored as whole
percents (the price multiplier as `100 ×` the multiplier, the elasticity as
`100 ×` its value), the three selects as parsed numbers, baseline and
simulation results as nullable fetched payloads. -/
structure PageState where
  revenueGrowth : ℚ
  aovChange : ℚ
  orderVolumeChange : ℚ
  cogsChange : ℚ
  conversionRateChange : ℚ
  priceMultiplier : ℚ
  priceElasticity : ℚ
  basePeriodDays : ℕ
  forecastDays : ℕ
  numSimulations : ℕ
  baseline : Option BaselineMetricsM
  simulation : Option SimulationResultM
  isLoading : Bool
  isSimulating : Bool

/-- Initial state of the page (the `useState` initializers, lines
674-697). -/
def initPageState : PageState :=
  { revenueGrowth := 0
  , aovChange := 0
  , orderVolumeChange := 0
  , cogsChange := 0
  , conversionRateChange := 0
  , priceMultiplier := 100
  , priceElasticity := -150
  , basePeriodDays := 90
  , forecastDays := 30
  , numSimulations := 10000
  , baseline := none
  , simulation := none
  , isLoading := true
  , isSimulating := false }

/-- The JSON body `runSimulation` posts to `/api/what-if/simulate` (lines
781-794): every percent-scaled slider value is divided by 100 at the model
boundary. -/
def runSimulationBody (s : PageState) : SimInputs :=
  { base_period_days := s.basePeriodDays
  , forecast_days := s.forecastDays
  , simulations := s.numSimulations
  , vars :=
    { revenue_growth := s.revenueGrowth / 100
    , aov_change := s.aovChange / 100
    , order_volume_change := s.orderVolumeChange / 100
    , cogs_change := s.cogsChange / 100
    , conversion_rate_change := s.conversionRateChange / 100
    , price_multiplier := s.priceMultiplier / 100
    , price_elasticity := s.priceElasticity / 100 } }

/-- Settled effect of `runSimulation`'s `try`/`catch`/`finally` (lines
796-809) on the page state: a successful response is stored, a failure only
raises an alert (a side effect outside the state) and in both cases the
`finally` block clears the simulating flag. -/
def runSimulationSettle (s : PageState)
    (r : Except String SimulationResultM) : PageState :=
  match r with
  | .ok data => { s with simulation := some data, isSimulating := false }
  | .error _ => { s with isSimulating := false }

/-- Settled effect of `fetchBaseline`'s `try`/`catch`/`finally` (lines
700-717) on the page state: a successful response is stored, a failure
resets the baseline to `null`, and the `finally` block clears the loading
flag. -/
def fetchBaselineSettle (s : PageState)
    (r : Except String BaselineMetricsM) : PageState :=
  match r with
  | .ok data => { s with baseline := some data, isLoading := false }
  | .error _ => { s with baseline := none, isLoading := false }

/-- User and network events the page reacts to.  Slider events carry the
new slider value; select events carry the index of the chosen option, since
a Polaris `Select` can only report a value from its `options` list. -/
inductive PageEvent where
  | setRevenueGrowth (v : ℚ)
  | setAovChange (v : ℚ)
  | setOrderVolumeChange (v : ℚ)
  | setCogsChange (v : ℚ)
  | setConversionRateChange (v : ℚ)
  | setPriceMultiplier (v : ℚ)
  | setPriceElasticity (v : ℚ)
  | selectBasePeriod (i : Fin basePeriodOptions.length)
  | selectForecast (i : Fin forecastOptions.length)
  | selectSimulations (i : Fin simulationOptions.length)
  | resetToBaseline
  | simulateStart
  | simulateSettle (r : Except String SimulationResultM)
  | baselineSettle (r : Except String BaselineMetricsM)

/-- One state transition of the page. -/
def pageStep (s : PageState) (e : PageEvent) : PageState :=
  match e with
  | .setRevenueGrowth v => { s with revenueGrowth := v }
  | .setAovChange v => { s with aovChange := v }
  | .setOrderVolumeChange v => { s with orderVolumeChange := v }
  | .setCogsChange v => { s with cogsChange := v }
  | .setConversionRateChange v => { s with conversionRateChange := v }
  | .setPriceMultiplier v => { s with priceMultiplier := v }
  | .setPriceElasticity v => { s with priceElasticity := v }
  | .selectBasePeriod i => { s with basePeriodDays := basePeriodOptions.get i }
  | .selectForecast i => { s with forecastDays := forecastOptions.get i }
  | .selectSimulations i => { s with numSimulations := simulationOptions.get i }
  | .resetToBaseline =>
    { s with revenueGrowth := 0, aovChange := 0, orderVolumeChange := 0
           , cogsChange := 0, conversionRateChange := 0
           , priceMultiplier := 100, priceElasticity := -150 }
  | .simulateStart => { s with isSimulating := true }
  | .simulateSettle r => runSimulationSettle s r
  | .baselineSettle r => fetchBaselineSettle s r

/-- Successor relation on page states: some event leads from one to the
other. -/
def PageSteps (s t : PageState) : Prop := ∃ e, t = pageStep s e

/-- States the page can reach from its initial render. -/
def ReachablePage (s : PageState) : Prop :=
  Relation.ReflTransGen PageSteps initPageState s

/-- JavaScript comparator `(a, b) => b.impact - a.impact` of the
sensitivity presentation (line 1609), as the "may come first" Boolean
relation of a stable sort: `a` may precede `b` exactly when the comparator
is nonpositive, i.e. when `b.2 ≤ a.2`. -/
def sensitivityLe (a b : String × ℚ) : Bool := decide (b.2 ≤ a.2)

/-- `Object.entries(simulation.sensitivity).sort(([, a], [, b]) => b - a)`
(lines 1608-1609): ECMAScript `Array.prototype.sort` is required to be
stable, so it is modelled by the stable `mergeSort` under the comparator
relation. -/
def sortSensitivityEntries (entries : List (String × ℚ)) :
    List (String × ℚ) :=
  entries.mergeSort sensitivityLe

/-! ## Helper lemmas -/

/-- Summing a function mapped over `List.range` is a `Finset.range` sum. -/
theorem sum_map_range (n : ℕ) (g : ℕ → ℕ) :
    ((List.range n).map g).sum = ∑ i ∈ Finset.range n, g i := by
  induction n with
  | zero => simp
  | succ n ih =>
    rw [List.range_succ, List.map_append, List.sum_append,
      Finset.sum_range_succ, ih]
    simp

/-- Counting the preimages of every bucket index covers the whole list when
the index function never leaves the bucket range. -/
theorem countP_bucket_sum (f : ℚ → ℕ) (n : ℕ) (xs : List ℚ)
    (h : ∀ v, f v < n) :
    (∑ i ∈ Finset.range n, xs.countP (fun v => decide (f v = i)))
      = xs.length := by
  induction xs with
  | nil => simp
  | cons x xs ih =>
    simp only [List.countP_cons, decide_eq_true_eq]
    rw [Finset.sum_add_distrib, ih]
    have hx : (∑ i ∈ Finset.range n, if f x = i then 1 else 0) = 1 := by
      rw [Finset.sum_ite_eq]
      simp [Finset.mem_range.mpr (h x)]
    rw [hx]
    simp [Nat.add_comm]

/-- Bucket indices always lie below the fixed bucket count. -/
theorem bucketIdx_lt (lo w v : ℚ) : bucketIdx lo w v < numBuckets := by
  unfold bucketIdx numBuckets
  split
  · norm_num
  · exact lt_of_le_of_lt (min_le_right _ _) (by norm_num)

/-- The histogram frequencies of any trial population sum to the population
size. -/
theorem histogramOf_sum_frequencies (xs : List ℚ) :
    (histogramOf xs).frequencies.sum = xs.length := by
  show ((List.range numBuckets).map
    (fun i => xs.countP (fun v => decide (bucketIdx _ _ v = i)))).sum = _
  rw [sum_map_range]
  exact countP_bucket_sum _ _ xs (fun v => bucketIdx_lt _ _ v)

/-- The sampler produces exactly the requested number of trials. -/
theorem length_sampleTrials (mean std : ℚ) (days : ℕ) :
    ∀ n s : ℕ, ((sampleTrials mean std days n s).1).length = n
  | 0, _ => rfl
  | n + 1, s => by
    simp [sampleTrials, length_sampleTrials mean std days n]

/-- A request yields exactly `simulations` revenue trials. -/
theorem length_trialRevenues (b : BaselineMetricsM) (inp : SimInputs)
    (seed : ℕ) : (trialRevenues b inp seed).length = inp.simulations :=
  length_sampleTrials _ _ _ _ _

/-- A request yields exactly `simulations` profit trials. -/
theorem length_trialProfits (b : BaselineMetricsM) (inp : SimInputs)
    (seed : ℕ) : (trialProfits b inp seed).length = inp.simulations := by
  rw [trialProfits, List.length_map, length_trialRevenues]

/-- Percentile indices grow with the percentile. -/
theorem percentileIdx_le (n : ℕ) {p q : ℕ} (h : p ≤ q) :
    percentileIdx p n ≤ percentileIdx q n :=
  Nat.div_le_div_right (Nat.mul_le_mul_right _ h)

/-- Percentile indices of a nonempty population are in bounds. -/
theorem percentileIdx_lt {p n : ℕ} (hn : 0 < n) (hp : p ≤ 100) :
    percentileIdx p n < n := by
  have h2 : p * (n - 1) ≤ 100 * (n - 1) := Nat.mul_le_mul_right _ hp
  have h3 : p * (n - 1) / 100 ≤ 100 * (n - 1) / 100 := Nat.div_le_div_right h2
  rw [Nat.mul_div_cancel_left _ (by norm_num : (0:ℕ) < 100)] at h3
  exact lt_of_le_of_lt h3 (Nat.sub_lt hn one_pos)

/-- On a nonempty population, a lower percentile never exceeds a higher
one. -/
theorem percentile_mono (xs : List ℚ) (hne : xs ≠ []) {p q : ℕ}
    (hpq : p ≤ q) (hq : q ≤ 100) :
    percentile p (sortedOf xs) ≤ percentile q (sortedOf xs) := by
  have hlen : (sortedOf xs).length = xs.length :=
    (List.perm_insertionSort (· ≤ ·) xs).length_eq
  have hn : 0 < (sortedOf xs).length := by
    rw [hlen]
    exact List.length_pos.mpr hne
  have hqlt : percentileIdx q (sortedOf xs).length < (sortedOf xs).length :=
    percentileIdx_lt hn hq
  have hplt : percentileIdx p (sortedOf xs).length < (sortedOf xs).length :=
    lt_of_le_of_lt (percentileIdx_le _ hpq) hqlt
  unfold percentile
  rw [List.getD_eq_get _ _ hplt, List.getD_eq_get _ _ hqlt]
  exact List.Sorted.rel_get_of_le (List.sorted_insertionSort (· ≤ ·) xs)
    (Fin.mk_le_mk.mpr (percentileIdx_le _ hpq))

/-- The summary of a nonempty population brackets its median between the
ends of the 90% confidence interval. -/
theorem summarize_median_in_confidence (xs : List ℚ) (hne : xs ≠ []) :
    (summarize xs).confidence_90.1 ≤ (summarize xs).median ∧
      (summarize xs).median ≤ (summarize xs).confidence_90.2 :=
  ⟨percentile_mono xs hne (by norm_num) (by norm_num),
   percentile_mono xs hne (by norm_num) (by norm_num)⟩

/-- The sensitivity comparator relation is transitive. -/
theorem sensitivityLe_trans (a b c : String × ℚ)
    (hab : sensitivityLe a b = true) (hbc : sensitivityLe b c = true) :
    sensitivityLe a c = true := by
  simp only [sensitivityLe, decide_eq_true_eq] at hab hbc ⊢
  exact le_trans hbc hab

/-- The sensitivity comparator relation is total. -/
theorem sensitivityLe_total (a b : String × ℚ) :
    (sensitivityLe a b || sensitivityLe b a) = true := by
  simp only [sensitivityLe, Bool.or_eq_true, decide_eq_true_eq]
  exact le_total b.2 a.2

/-- A percentage delta of a quantity against itself vanishes in both the
guarded and the unguarded branch. -/
theorem percentDelta_self (x : ℚ) : percentDelta x x = 0 := by
  unfold percentDelta
  split <;> simp

/-- One page transition keeps the three select-backed parameters inside
their option lists: a `Select` can only report one of its options, and no
other event touches these fields. -/
theorem pageStep_preserves_params (s : PageState) (e : PageEvent)
    (ih : s.numSimulations ∈ simulationOptions ∧
      s.forecastDays ∈ forecastOptions ∧
      s.basePeriodDays ∈ basePeriodOptions) :
    (pageStep s e).numSimulations ∈ simulationOptions ∧
      (pageStep s e).forecastDays ∈ forecastOptions ∧
      (pageStep s e).basePeriodDays ∈ basePeriodOptions := by
  cases e with
  | selectBasePeriod i => exact ⟨ih.1, ih.2.1, List.get_mem _ i.1 i.2⟩
  | selectForecast i => exact ⟨ih.1, List.get_mem _ i.1 i.2, ih.2.2⟩
  | selectSimulations i => exact ⟨List.get_mem _ i.1 i.2, ih.2.1, ih.2.2⟩
  | simulateSettle r => cases r <;> exact ih
  | baselineSettle r => cases r <;> exact ih
  | setRevenueGrowth v => exact ih
  | setAovChange v => exact ih
  | setOrderVolumeChange v => exact ih
  | setCogsChange v => exact ih
  | setConversionRateChange v => exact ih
  | setPriceMultiplier v => exact ih
  | setPriceElasticity v => exact ih
  | resetToBaseline => exact ih
  | simulateStart => exact ih

/-- Every reachable page state keeps the select-backed parameters inside
their option lists. -/
theorem reachable_params (s : PageState) (h : ReachablePage s) :
    s.numSimulations ∈ simulationOptions ∧
      s.forecastDays ∈ forecastOptions ∧
      s.basePeriodDays ∈ basePeriodOptions := by
  induction h with
  | refl => refine ⟨?_, ?_, ?_⟩ <;> decide
  | tail _ hstep ih =>
    obtain ⟨ev, rfl⟩ := hstep
    exact pageStep_preserves_params _ ev ih

/-! ## Claims -/

/-- Claim C1: for every valid `RunSimulation` request, in the returned
`SimulationResult` the revenue histogram's frequencies and the profit
histogram's frequencies each sum exactly to the requested trial count
`simulations`. -/
theorem simulation_histogram_frequencies_sum (b : BaselineMetricsM)
    (inp : SimInputs) (seed : ℕ) :
    (runSimulationModel b inp seed).results.revenue.histogram.frequencies.sum
        = inp.simulations ∧
      (runSimulationModel b inp seed).results.profit.histogram.frequencies.sum
        = inp.simulations := by
  constructor
  · show (histogramOf (trialRevenues b inp seed)).frequencies.sum = _
    rw [histogramOf_sum_frequencies, length_trialRevenues]
  · show (histogramOf (trialProfits b inp seed)).frequencies.sum = _
    rw [histogramOf_sum_frequencies, length_trialProfits]

/-- Claim C2: for every valid `RunSimulation` request, in each of the
revenue and profit summaries of the returned `SimulationResult`,
`confidence_90.1 ≤ median ≤ confidence_90.2`, where `confidence_90` is
the (5th percentile, 95th percentile) pair. -/
theorem simulation_median_within_confidence (b : BaselineMetricsM)
    (inp : SimInputs) (seed : ℕ) (h : 0 < inp.simulations) :
    ((runSimulationModel b inp seed).results.revenue.confidence_90.1
        ≤ (runSimulationModel b inp seed).results.revenue.median ∧
      (runSimulationModel b inp seed).results.revenue.median
        ≤ (runSimulationModel b inp seed).results.revenue.confidence_90.2) ∧
      ((runSimulationModel b inp seed).results.profit.confidence_90.1
        ≤ (runSimulationModel b inp seed).results.profit.median ∧
      (runSimulationModel b inp seed).results.profit.median
        ≤ (runSimulationModel b inp seed).results.profit.confidence_90.2) := by
  have hr : trialRevenues b inp seed ≠ [] :=
    List.ne_nil_of_length_pos (by rw [length_trialRevenues]; exact h)
  have hp : trialProfits b inp seed ≠ [] :=
    List.ne_nil_of_length_pos (by rw [length_trialProfits]; exact h)
  exact ⟨summarize_median_in_confidence _ hr,
    summarize_median_in_confidence _ hp⟩

/-- Claim C3: the Price Elasticity Model's demand effect equals
`elasticity × (price_multiplier − 1)`; consequently `price_multiplier = 1`
yields zero demand effect and zero revenue/profit delta for every
elasticity, and `elasticity = 0` yields zero demand effect for every
multiplier. -/
theorem price_elasticity_zero_cases
    (dailyOrders aov unitCost priceMult elasticity : ℚ)
    (h : 0 ≤ dailyOrders) :
    (pricePreviewModel dailyOrders aov unitCost priceMult
        elasticity).demand_effect = elasticity * (priceMult - 1) ∧
      (priceMult = 1 →
        (pricePreviewModel dailyOrders aov unitCost priceMult
            elasticity).demand_effect = 0 ∧
          (pricePreviewModel dailyOrders aov unitCost priceMult
            elasticity).revenue_change_absolute = 0 ∧
          (pricePreviewModel dailyOrders aov unitCost priceMult
            elasticity).revenue_change_percent = 0 ∧
          (pricePreviewModel dailyOrders aov unitCost priceMult
            elasticity).profit_change_absolute = 0 ∧
          (pricePreviewModel dailyOrders aov unitCost priceMult
            elasticity).profit_change_percent = 0) ∧
      (elasticity = 0 →
        (pricePreviewModel dailyOrders aov unitCost priceMult
          elasticity).demand_effect = 0) := by
  refine ⟨rfl, ?_, ?_⟩
  · intro h1
    subst h1
    have hord : elasticityAdjustedOrders dailyOrders elasticity 1
        = dailyOrders := by
      simp [elasticityAdjustedOrders, demandEffect, max_eq_right h]
    refine ⟨?_, ?_, ?_, ?_, ?_⟩
    · show demandEffect elasticity 1 = 0
      simp [demandEffect]
    · show elasticityAdjustedOrders dailyOrders elasticity 1 * (aov * 1)
        - dailyOrders * aov = 0
      rw [hord]
      ring
    · show percentDelta (dailyOrders * aov)
        (elasticityAdjustedOrders dailyOrders elasticity 1 * (aov * 1)) = 0
      rw [hord, mul_one]
      exact percentDelta_self _
    · show elasticityAdjustedOrders dailyOrders elasticity 1 * (aov * 1)
        - elasticityAdjustedOrders dailyOrders elasticity 1 * unitCost
        - (dailyOrders * aov - dailyOrders * unitCost) = 0
      rw [hord]
      ring
    · show percentDelta (dailyOrders * aov - dailyOrders * unitCost)
        (elasticityAdjustedOrders dailyOrders elasticity 1 * (aov * 1)
          - elasticityAdjustedOrders dailyOrders elasticity 1 * unitCost) = 0
      rw [hord, mul_one]
      exact percentDelta_self _
  · intro h0
    subst h0
    show demandEffect 0 priceMult = 0
    simp [demandEffect]

/-- Claim C4: the simulation pipeline is a deterministic function of the
materialized baseline, the request inputs and the seed: two runs with equal
arguments return equal `SimulationResult` values. -/
theorem runSimulation_deterministic (b1 b2 : BaselineMetricsM)
    (i1 i2 : SimInputs) (s1 s2 : ℕ)
    (hb : b1 = b2) (hi : i1 = i2) (hs : s1 = s2) :
    runSimulationModel b1 i1 s1 = runSimulationModel b2 i2 s2 := by
  subst hb
  subst hi
  subst hs
  rfl

/-- Claim C5: every percentage variable crosses the model boundary as a
fraction: each numeric field of the posted `variables` object equals the
corresponding percent-scaled slider state divided by 100, and the counts
are passed through unchanged. -/
theorem runSimulationBody_fractions (s : PageState) :
    (runSimulationBody s).vars.revenue_growth = s.revenueGrowth / 100 ∧
      (runSimulationBody s).vars.aov_change = s.aovChange / 100 ∧
      (runSimulationBody s).vars.order_volume_change
        = s.orderVolumeChange / 100 ∧
      (runSimulationBody s).vars.cogs_change = s.cogsChange / 100 ∧
      (runSimulationBody s).vars.conversion_rate_change
        = s.conversionRateChange / 100 ∧
      (runSimulationBody s).vars.price_multiplier = s.priceMultiplier / 100 ∧
      (runSimulationBody s).vars.price_elasticity = s.priceElasticity / 100 ∧
      (runSimulationBody s).base_period_days = s.basePeriodDays ∧
      (runSimulationBody s).forecast_days = s.forecastDays ∧
      (runSimulationBody s).simulations = s.numSimulations :=
  ⟨rfl, rfl, rfl, rfl, rfl, rfl, rfl, rfl, rfl, rfl⟩

/-- Claim C6: the sensitivity breakdown is presented with the entries of
the sensitivity map sorted in descending order of impact, the sorted list
is a permutation of the map's entries, and entries with equal impact keep
their declaration order (stable tie-breaking). -/
theorem sensitivity_sorted_descending_stable (entries : List (String × ℚ))
    (e1 e2 : String × ℚ) (hsub : List.Sublist [e1, e2] entries)
    (heq : e1.2 = e2.2) :
    (sortSensitivityEntries entries).Pairwise (fun a b => b.2 ≤ a.2) ∧
      (sortSensitivityEntries entries).Perm entries ∧
      List.Sublist [e1, e2] (sortSensitivityEntries entries) := by
  refine ⟨?_, List.mergeSort_perm entries sensitivityLe, ?_⟩
  · have hs := @List.sorted_mergeSort (String × ℚ) sensitivityLe
      sensitivityLe_trans sensitivityLe_total entries
    exact hs.imp (fun hab => of_decide_eq_true hab)
  · have hp : List.Pairwise (fun a b => sensitivityLe a b = true) [e1, e2] := by
      simp [sensitivityLe, List.pairwise_cons, heq.ge]
    exact List.sublist_mergeSort sensitivityLe_trans sensitivityLe_total
      hp hsub

/-- Claim C7: every simulation request issued by the page carries a
`simulations` count drawn from the supported select options (hence within
1,000 to 50,000) and a `forecast_days` drawn from the forecast options
(hence at most 90). -/
theorem simulate_request_bounds (s : PageState) (h : ReachablePage s) :
    (runSimulationBody s).simulations ∈ simulationOptions ∧
      1000 ≤ (runSimulationBody s).simulations ∧
      (runSimulationBody s).simulations ≤ 50000 ∧
      (runSimulationBody s).forecast_days ∈ forecastOptions ∧
      (runSimulationBody s).forecast_days ≤ 90 := by
  obtain ⟨h1, h2, h3⟩ := reachable_params s h
  have hb : ∀ x ∈ simulationOptions, 1000 ≤ x ∧ x ≤ 50000 := by decide
  have hf : ∀ x ∈ forecastOptions, x ≤ 90 := by decide
  exact ⟨h1, (hb _ h1).1, (hb _ h1).2, h2, hf _ h2⟩

/-- Claim C8: `GetBaseline` on a window of 0 or 1 observations fails with
the insufficient-data error instead of returning a zeroed result, while a
present but all-zero window of at least 2 observations succeeds. -/
theorem getBaseline_insufficient_vs_zero (obs : List DailyObs) :
    (obs.length ≤ 1 → getBaseline obs = .error .insufficientData) ∧
      (2 ≤ obs.length →
        (∀ o ∈ obs, o.revenue = 0 ∧ o.order_count = 0 ∧ o.cogs = 0) →
        ∃ m, getBaseline obs = .ok m) := by
  constructor
  · intro h
    unfold getBaseline
    rw [if_pos (by omega)]
  · intro h _
    unfold getBaseline
    rw [if_neg (by omega)]
    exact ⟨_, rfl⟩

/-- Claim C10: a failed simulate request leaves the stored simulation
result untouched and only clears the simulating flag (also across the full
start-then-fail flow), whereas a failed baseline fetch resets the stored
baseline to `none` and clears the loading flag. -/
theorem failed_requests_state_effects (s : PageState) (msg : String) :
    (runSimulationSettle s (.error msg)).simulation = s.simulation ∧
      (runSimulationSettle s (.error msg)).isSimulating = false ∧
      (runSimulationSettle (pageStep s .simulateStart)
        (.error msg)).simulation = s.simulation ∧
      (fetchBaselineSettle s (.error msg)).baseline = none ∧
      (fetchBaselineSettle s (.error msg)).isLoading = false :=
  ⟨rfl, rfl, rfl, rfl, rfl⟩

/-! ## Concrete inputs for the witnesses -/

/-- A concrete baseline (1000 daily revenue over 40 daily orders). -/
def demoBaseline : BaselineMetricsM :=
  { period_days := 90
  , daily_revenue_mean := 1000
  , daily_revenue_std_dev := 100
  , daily_orders_mean := 40
  , daily_orders_std_dev := 5
  , average_order_value := 25
  , cogs_rate := 2 / 5
  , revenue_cov := 1 / 10
  , revenue_trend := 0 }

/-- A concrete small simulate request. -/
def demoInputs : SimInputs :=
  { base_period_days := 90
  , forecast_days := 7
  , simulations := 5
  , vars :=
    { revenue_growth := 1 / 10
    , aov_change := 0
    , order_volume_change := 0
    , cogs_change := 0
    , conversion_rate_change := 0
    , price_multiplier := 11 / 10
    , price_elasticity := -3 / 2 } }

/-- An observed day with no orders at all. -/
def zeroObs : DailyObs := { revenue := 0, order_count := 0, cogs := 0 }

/-- A concrete sensitivity map with a tie between its last two entries. -/
def demoEntries : List (String × ℚ) :=
  [("revenue_growth", 10), ("aov_change", 5), ("cogs_change", 5)]

/-- Witness for claim C2 at the concrete baseline, request and seed. -/
theorem simulation_median_within_confidence_witness :
    0 < demoInputs.simulations ∧
      (((runSimulationModel demoBaseline demoInputs 42).results.revenue.confidence_90.1
          ≤ (runSimulationModel demoBaseline demoInputs 42).results.revenue.median ∧
        (runSimulationModel demoBaseline demoInputs 42).results.revenue.median
          ≤ (runSimulationModel demoBaseline demoInputs 42).results.revenue.confidence_90.2) ∧
        ((runSimulationModel demoBaseline demoInputs 42).results.profit.confidence_90.1
          ≤ (runSimulationModel demoBaseline demoInputs 42).results.profit.median ∧
        (runSimulationModel demoBaseline demoInputs 42).results.profit.median
          ≤ (runSimulationModel demoBaseline demoInputs 42).results.profit.confidence_90.2)) :=
  ⟨by decide,
    simulation_median_within_confidence demoBaseline demoInputs 42 (by decide)⟩

/-- Witness for claim C3 at concrete baseline figures. -/
theorem price_elasticity_zero_cases_witness :
    (0:ℚ) ≤ 40 ∧
      ((pricePreviewModel 40 25 10 2 (-1)).demand_effect = -1 * (2 - 1) ∧
        ((2:ℚ) = 1 →
          (pricePreviewModel 40 25 10 2 (-1)).demand_effect = 0 ∧
            (pricePreviewModel 40 25 10 2 (-1)).revenue_change_absolute = 0 ∧
            (pricePreviewModel 40 25 10 2 (-1)).revenue_change_percent = 0 ∧
            (pricePreviewModel 40 25 10 2 (-1)).profit_change_absolute = 0 ∧
            (pricePreviewModel 40 25 10 2 (-1)).profit_change_percent = 0) ∧
        ((-1:ℚ) = 0 →
          (pricePreviewModel 40 25 10 2 (-1)).demand_effect = 0)) :=
  ⟨by decide, price_elasticity_zero_cases 40 25 10 2 (-1) (by decide)⟩

/-- Witness for claim C4: two runs at identical concrete arguments. -/
theorem runSimulation_deterministic_witness :
    demoBaseline = demoBaseline ∧ demoInputs = demoInputs ∧ (42:ℕ) = 42 ∧
      runSimulationModel demoBaseline demoInputs 42
        = runSimulationModel demoBaseline demoInputs 42 :=
  ⟨rfl, rfl, rfl,
    runSimulation_deterministic demoBaseline demoBaseline demoInputs
      demoInputs 42 42 rfl rfl rfl⟩

/-- Witness for claim C6 at a concrete entry list with a tie. -/
theorem sensitivity_sorted_descending_stable_witness :
    List.Sublist [(("aov_change", 5) : String × ℚ), ("cogs_change", 5)]
        demoEntries ∧
      ((("aov_change", 5) : String × ℚ)).2 = ((("cogs_change", 5) : String × ℚ)).2 ∧
      ((sortSensitivityEntries demoEntries).Pairwise (fun a b => b.2 ≤ a.2) ∧
        (sortSensitivityEntries demoEntries).Perm demoEntries ∧
        List.Sublist [(("aov_change", 5) : String × ℚ), ("cogs_change", 5)]
          (sortSensitivityEntries demoEntries)) :=
  ⟨List.Sublist.cons _ (List.Sublist.refl _), rfl,
    sensitivity_sorted_descending_stable demoEntries _ _
      (List.Sublist.cons _ (List.Sublist.refl _)) rfl⟩

/-- Witness for claim C7 at the initial page state. -/
theorem simulate_request_bounds_witness :
    ReachablePage initPageState ∧
      ((runSimulationBody initPageState).simulations ∈ simulationOptions ∧
        1000 ≤ (runSimulationBody initPageState).simulations ∧
        (runSimulationBody initPageState).simulations ≤ 50000 ∧
        (runSimulationBody initPageState).forecast_days ∈ forecastOptions ∧
        (runSimulationBody initPageState).forecast_days ≤ 90) :=
  ⟨Relation.ReflTransGen.refl,
    simulate_request_bounds initPageState Relation.ReflTransGen.refl⟩

/-- Witness for claim C8: the empty window fails, the two-day all-zero
window succeeds. -/
theorem getBaseline_insufficient_vs_zero_witness :
    ([] : List DailyObs).length ≤ 1 ∧
      getBaseline [] = .error .insufficientData ∧
      2 ≤ ([zeroObs, zeroObs] : List DailyObs).length ∧
      (∀ o ∈ [zeroObs, zeroObs],
        o.revenue = 0 ∧ o.order_count = 0 ∧ o.cogs = 0) ∧
      ∃ m, getBaseline [zeroObs, zeroObs] = .ok m :=
  ⟨by decide, (getBaseline_insufficient_vs_zero []).1 (by decide),
    by decide, by decide,
    (getBaseline_insufficient_vs_zero [zeroObs, zeroObs]).2 (by decide)
      (by decide)⟩

end WhatIf
